import Mathlib

/-!
# Table Comparator — result interpreter, embedded from the source

This file embeds the comparison-result interpretation functions of the
table-comparator front end (`getSamplingMethodText`,
`getDetailedStatusMessage`, `getComparisonStatusClass`) as Lean
definitions and proves the specified properties about them.

JavaScript numbers that the code renders with `toLocaleString()` are
modelled as `Nat` together with an explicit digit-grouping function.
The `schema_differences` field may be `null`/`undefined` in the source,
so it is modelled as `Option (List String)`; likewise `sampling_method`
is an `Option String`.
-/

/-- Digit grouping as performed by `Number.prototype.toLocaleString()`
for non-negative integers (en-US grouping: a comma every three digits).
The input list is the reversed digit list. -/
def commaGroup : List Char → List Char
  | [] => []
  | [a] => [a]
  | [a, b] => [a, b]
  | [a, b, c] => [a, b, c]
  | a :: b :: c :: d :: rest => a :: b :: c :: ',' :: commaGroup (d :: rest)

/-- `n.toLocaleString()` for a non-negative integer `n`. -/
def toLocaleString (n : Nat) : String :=
  String.mk ((commaGroup (toString n).data.reverse).reverse)

/-- The `data.summary` record of a ComparisonResult. -/
structure Summary where
  total_differing : Nat
  total_missing_dev : Nat
  total_missing_prod : Nat
  deriving DecidableEq, Repr

/-- The ComparisonResult record consumed by the status functions.
`schema_differences` is `none` when the field is `null`/absent in the
source data; `sampling_method` is `none` when absent. -/
structure ComparisonResult where
  tables_identical : Bool
  dev_row_count : Nat
  prod_row_count : Nat
  schema_differences : Option (List String)
  summary : Summary
  was_limited : Bool
  sampling_method : Option String
  max_rows_setting : Nat
  deriving DecidableEq, Repr

/-- One entry of the issues list built in the non-identical branch of
`getDetailedStatusMessage` (`{icon, text, type}` object literals). -/
structure Issue where
  icon : String
  text : String
  type : String
  deriving DecidableEq, Repr

/-- The object literal `{'LAST_N': ..., 'RANDOM': ..., 'TOP_N': ...}`
inside `getSamplingMethodText`, as a key lookup. -/
def samplingMethods (m : String) : Option String :=
  if m = "LAST_N" then some "most recent"
  else if m = "RANDOM" then some "random sample of"
  else if m = "TOP_N" then some "first"
  else none

/-- `getSamplingMethodText(method)`: `methods[method] || 'first'`.
A `none` argument models an absent/`null` method. -/
def getSamplingMethodText (method : Option String) : String :=
  (method.bind samplingMethods).getD "first"

/-- The `dataIssues` array built in the data-differences check
(lines 308–311 of the source): one string pushed per non-zero summary
count, in source order. -/
def dataIssuesFor (s : Summary) : List String :=
  let dataIssues : List String := []
  let dataIssues :=
    if 0 < s.total_differing then
      dataIssues ++ [toString s.total_differing ++ " differing"]
    else dataIssues
  let dataIssues :=
    if 0 < s.total_missing_dev then
      dataIssues ++ [toString s.total_missing_dev ++ " missing from DEV"]
    else dataIssues
  let dataIssues :=
    if 0 < s.total_missing_prod then
      dataIssues ++ [toString s.total_missing_prod ++ " missing from PROD"]
    else dataIssues
  dataIssues

/-- The `issues` array built by the non-identical branch of
`getDetailedStatusMessage` (lines 274–339): four conditional pushes, in
source order — schema check, row-count check, data-differences check,
coverage check.  The `null` guard `data.schema_differences &&` is the
`none` case of the match. -/
def issuesFor (data : ComparisonResult) : List Issue :=
  let issues : List Issue := []
  let issues := issues ++
    (match data.schema_differences with
     | some l =>
         if 0 < l.length then
           [{ icon := "fa-exclamation-triangle"
              text := "Schema differences (" ++ toString l.length ++ ")"
              type := "danger" }]
         else
           [{ icon := "fa-check", text := "Schema identical", type := "success" }]
     | none =>
         [{ icon := "fa-check", text := "Schema identical", type := "success" }])
  let issues := issues ++
    (if data.dev_row_count ≠ data.prod_row_count then
       [{ icon := "fa-exclamation-triangle"
          text := "Row count mismatch: DEV(" ++ toLocaleString data.dev_row_count ++
                  ") vs PROD(" ++ toLocaleString data.prod_row_count ++ ")"
          type := "danger" }]
     else
       [{ icon := "fa-check"
          text := "Row counts match (" ++ toLocaleString data.dev_row_count ++ ")"
          type := "success" }])
  let issues := issues ++
    (if 0 < data.summary.total_differing ∨ 0 < data.summary.total_missing_dev ∨
        0 < data.summary.total_missing_prod then
       [{ icon := "fa-exclamation-triangle"
          text := "Data differences: " ++ String.intercalate ", " (dataIssuesFor data.summary)
          type := "danger" }]
     else
       [{ icon := "fa-check", text := "Compared data identical", type := "success" }])
  let issues := issues ++
    (if data.was_limited then
       [{ icon := "fa-info-circle"
          text := "Limited analysis: " ++ getSamplingMethodText data.sampling_method ++
                  " " ++ toLocaleString data.max_rows_setting ++ " rows"
          type := "warning" }]
     else
       [{ icon := "fa-check", text := "Complete table analysis", type := "success" }])
  issues

/-- Boilerplate of the identical-case template before "Schema Match". -/
def identChunk1 : String :=
  "\n            <div class=\"d-flex align-items-center mb-3\">\n                <i class=\"fas fa-check-circle text-success me-2 fs-4\"></i>\n                <h6 class=\"mb-0 text-success\">Perfect Match! 🎉</h6>\n            </div>\n            <div class=\"row g-3 text-sm\">\n                <div class=\"col-md-3\">\n                    <div class=\"d-flex align-items-center\">\n                        <i class=\"fas fa-database me-2 text-success\"></i>\n                        <span>"

/-- Boilerplate between "Schema Match" and the interpolated row count. -/
def identChunk2 : String :=
  "</span>\n                    </div>\n                </div>\n                <div class=\"col-md-3\">\n                    <div class=\"d-flex align-items-center\">\n                        <i class=\"fas fa-list-ol me-2 text-success\"></i>\n                        <span>"

/-- Boilerplate between " Rows" and "Data Identical". -/
def identChunk3 : String :=
  "</span>\n                    </div>\n                </div>\n                <div class=\"col-md-3\">\n                    <div class=\"d-flex align-items-center\">\n                        <i class=\"fas fa-equals me-2 text-success\"></i>\n                        <span>"

/-- Boilerplate between "Data Identical" and "Complete Analysis". -/
def identChunk4 : String :=
  "</span>\n                    </div>\n                </div>\n                <div class=\"col-md-3\">\n                    <div class=\"d-flex align-items-center\">\n                        <i class=\"fas fa-chart-line me-2 text-success\"></i>\n                        <span>"

/-- Closing boilerplate of the identical-case template. -/
def identChunk5 : String :=
  "</span>\n                    </div>\n                </div>\n            </div>\n        "

/-- The HTML fragment rendered for one issue by the `issues.map`
callback (lines 342–345 of the source). -/
def issueHtml (issue : Issue) : String :=
  "<div class=\"d-flex align-items-center mb-2\">\n                <i class=\"fas " ++
  issue.icon ++ " me-2 text-" ++ issue.type ++
  "\"></i>\n                <span class=\"text-" ++ issue.type ++ "\">" ++
  issue.text ++ "</span>\n            </div>"

/-- The non-identical wrapper template around the joined issues list
(lines 348–356 of the source). -/
def analysisHtml (issuesList : String) : String :=
  "\n            <div class=\"mb-3\">\n                <h6 class=\"text-muted mb-3\">\n                    <i class=\"fas fa-clipboard-check me-2\"></i>\n                    Analysis Results\n                </h6>\n                " ++
  issuesList ++ "\n            </div>\n        "

/-- `getDetailedStatusMessage(data)` (lines 239–358 of the source).
The identical branch is the template literal with the single
interpolation `${data.dev_row_count.toLocaleString()}`; the
non-identical branch renders the issues list and wraps it. -/
def getDetailedStatusMessage (data : ComparisonResult) : String :=
  if data.tables_identical then
    identChunk1 ++ "Schema Match" ++ identChunk2 ++
      toLocaleString data.dev_row_count ++ " Rows" ++ identChunk3 ++
      "Data Identical" ++ identChunk4 ++ "Complete Analysis" ++ identChunk5
  else
    analysisHtml (String.join ((issuesFor data).map issueHtml))

/-- `getComparisonStatusClass(data)` (lines 360–362 of the source). -/
def getComparisonStatusClass (data : ComparisonResult) : String :=
  if data.tables_identical then "card-header bg-success text-white"
  else "card-header bg-warning text-dark"

/-- `t` occurs as a contiguous substring of `s`. -/
def strContainsSub (s t : String) : Prop :=
  ∃ l r : List Char, s.data = l ++ (t.data ++ r)

/-- The schema entry as the spec describes it: danger with the
difference count when `schema_differences` is non-empty, success with
"Schema identical" otherwise (also when the field is absent). -/
def schemaEntry (data : ComparisonResult) : Issue :=
  match data.schema_differences with
  | some l =>
      if 0 < l.length then
        { icon := "fa-exclamation-triangle"
          text := "Schema differences (" ++ toString l.length ++ ")"
          type := "danger" }
      else { icon := "fa-check", text := "Schema identical", type := "success" }
  | none => { icon := "fa-check", text := "Schema identical", type := "success" }

/-- The row-count entry as the spec describes it. -/
def rowCountEntry (data : ComparisonResult) : Issue :=
  if data.dev_row_count ≠ data.prod_row_count then
    { icon := "fa-exclamation-triangle"
      text := "Row count mismatch: DEV(" ++ toLocaleString data.dev_row_count ++
              ") vs PROD(" ++ toLocaleString data.prod_row_count ++ ")"
      type := "danger" }
  else
    { icon := "fa-check"
      text := "Row counts match (" ++ toLocaleString data.dev_row_count ++ ")"
      type := "success" }

/-- The data-differences entry as the spec describes it. -/
def dataDiffEntry (data : ComparisonResult) : Issue :=
  if 0 < data.summary.total_differing ∨ 0 < data.summary.total_missing_dev ∨
     0 < data.summary.total_missing_prod then
    { icon := "fa-exclamation-triangle"
      text := "Data differences: " ++ String.intercalate ", " (dataIssuesFor data.summary)
      type := "danger" }
  else { icon := "fa-check", text := "Compared data identical", type := "success" }

/-- The coverage entry as the spec describes it. -/
def coverageEntry (data : ComparisonResult) : Issue :=
  if data.was_limited then
    { icon := "fa-info-circle"
      text := "Limited analysis: " ++ getSamplingMethodText data.sampling_method ++
              " " ++ toLocaleString data.max_rows_setting ++ " rows"
      type := "warning" }
  else { icon := "fa-check", text := "Complete table analysis", type := "success" }

/-- Modelled from the spec: the data-differences list as §4.2 words it —
take the categories in the fixed order (differing, missing_dev,
missing_prod) with their labels, keep exactly those with a non-zero
count, and render each as "<n> <label>". -/
def specDataParts (s : Summary) : List String :=
  ([(s.total_differing, "differing"),
    (s.total_missing_dev, "missing from DEV"),
    (s.total_missing_prod, "missing from PROD")].filter (fun p => 0 < p.1)).map
    (fun p => toString p.1 ++ " " ++ p.2)

/-- A concrete non-identical sample input used by witness theorems. -/
def sampleResult : ComparisonResult :=
  { tables_identical := false
    dev_row_count := 1500
    prod_row_count := 1400
    schema_differences := some ["colA", "colB"]
    summary := { total_differing := 5, total_missing_dev := 0, total_missing_prod := 2 }
    was_limited := true
    sampling_method := some "RANDOM"
    max_rows_setting := 5000 }

/-- A second concrete sample that differs from `sampleResult` in every
field except `tables_identical`. -/
def sampleResult2 : ComparisonResult :=
  { tables_identical := false
    dev_row_count := 7
    prod_row_count := 7
    schema_differences := none
    summary := { total_differing := 0, total_missing_dev := 3, total_missing_prod := 0 }
    was_limited := false
    sampling_method := none
    max_rows_setting := 100 }

/-- A concrete identical-tables sample input used by witness theorems. -/
def sampleIdentical : ComparisonResult :=
  { tables_identical := true
    dev_row_count := 1000
    prod_row_count := 1000
    schema_differences := some []
    summary := { total_differing := 0, total_missing_dev := 0, total_missing_prod := 0 }
    was_limited := false
    sampling_method := none
    max_rows_setting := 10000 }

example : toLocaleString 5000 = "5,000" := by decide
example : toLocaleString 1000000 = "1,000,000" := by decide
example : toLocaleString 100 = "100" := by decide
example : getSamplingMethodText (some "BOGUS") = "first" := by decide

/-- The issues list always consists of the four category entries, in the
fixed source order. -/
theorem issuesFor_eq (data : ComparisonResult) :
    issuesFor data =
      [schemaEntry data, rowCountEntry data, dataDiffEntry data, coverageEntry data] := by
  unfold issuesFor schemaEntry rowCountEntry dataDiffEntry coverageEntry
  cases data.schema_differences <;> dsimp only <;> split_ifs <;> rfl

/-- The `dataIssues` accumulation of the source coincides with the
spec-worded rendering: filter the ordered categories to the non-zero
ones, then render each. -/
theorem dataIssuesFor_eq_spec (s : Summary) : dataIssuesFor s = specDataParts s := by
  unfold dataIssuesFor specDataParts
  rcases s with ⟨a, b, c⟩
  by_cases h1 : 0 < a <;> by_cases h2 : 0 < b <;> by_cases h3 : 0 < c <;>
    simp [h1, h2, h3, List.filter, String.append_assoc]

/-- Any substring placed between two others is contained. -/
theorem strContainsSub_of_parts (a t b s : String) (h : s = a ++ t ++ b) :
    strContainsSub s t :=
  ⟨a.data, b.data, by
    subst h
    rw [String.data_append (a ++ t) b, String.data_append a t, List.append_assoc]⟩

/-- C1: for every ComparisonResult with `tables_identical = false`,
`getDetailedStatusMessage` renders exactly the four issue entries, in the
fixed order schema, row-count, data, coverage, and
`getComparisonStatusClass` returns the warning style class (never the
danger one), no matter how many sub-entries are danger. -/
theorem claim1_nonidentical_four_issues (data : ComparisonResult)
    (h : data.tables_identical = false) :
    getDetailedStatusMessage data =
      analysisHtml (String.join ((issuesFor data).map issueHtml)) ∧
    (issuesFor data).length = 4 ∧
    (issuesFor data)[0]? = some (schemaEntry data) ∧
    (issuesFor data)[1]? = some (rowCountEntry data) ∧
    (issuesFor data)[2]? = some (dataDiffEntry data) ∧
    (issuesFor data)[3]? = some (coverageEntry data) ∧
    getComparisonStatusClass data = "card-header bg-warning text-dark" := by
  refine ⟨by simp [getDetailedStatusMessage, h], ?_, ?_, ?_, ?_, ?_,
    by simp [getComparisonStatusClass, h]⟩ <;> rw [issuesFor_eq] <;> rfl

/-- C1 witness at a concrete non-identical input. -/
theorem claim1_witness :
    (issuesFor sampleResult).length = 4 ∧
    getComparisonStatusClass sampleResult = "card-header bg-warning text-dark" :=
  ⟨(claim1_nonidentical_four_issues sampleResult rfl).2.1,
   (claim1_nonidentical_four_issues sampleResult rfl).2.2.2.2.2.2⟩

/-- C2: for every ComparisonResult with `tables_identical = true`,
`getDetailedStatusMessage` is the single success-styled report containing
the four affirmations — "Schema Match", the literal `dev_row_count`
followed by " Rows", "Data Identical", "Complete Analysis" — and
`getComparisonStatusClass` returns the success style class. -/
theorem claim2_identical_success_report (data : ComparisonResult)
    (h : data.tables_identical = true) :
    getDetailedStatusMessage data =
      identChunk1 ++ "Schema Match" ++ identChunk2 ++
        toLocaleString data.dev_row_count ++ " Rows" ++ identChunk3 ++
        "Data Identical" ++ identChunk4 ++ "Complete Analysis" ++ identChunk5 ∧
    strContainsSub (getDetailedStatusMessage data) "Schema Match" ∧
    strContainsSub (getDetailedStatusMessage data)
      (toLocaleString data.dev_row_count ++ " Rows") ∧
    strContainsSub (getDetailedStatusMessage data) "Data Identical" ∧
    strContainsSub (getDetailedStatusMessage data) "Complete Analysis" ∧
    getComparisonStatusClass data = "card-header bg-success text-white" := by
  refine ⟨by simp [getDetailedStatusMessage, h], ?_, ?_, ?_, ?_,
    by simp [getComparisonStatusClass, h]⟩
  · exact strContainsSub_of_parts identChunk1 "Schema Match"
      (identChunk2 ++ toLocaleString data.dev_row_count ++ " Rows" ++ identChunk3 ++
        "Data Identical" ++ identChunk4 ++ "Complete Analysis" ++ identChunk5) _
      (by simp [getDetailedStatusMessage, h, String.append_assoc])
  · exact strContainsSub_of_parts (identChunk1 ++ "Schema Match" ++ identChunk2)
      (toLocaleString data.dev_row_count ++ " Rows")
      (identChunk3 ++ "Data Identical" ++ identChunk4 ++ "Complete Analysis" ++ identChunk5) _
      (by simp [getDetailedStatusMessage, h, String.append_assoc])
  · exact strContainsSub_of_parts
      (identChunk1 ++ "Schema Match" ++ identChunk2 ++
        toLocaleString data.dev_row_count ++ " Rows" ++ identChunk3)
      "Data Identical" (identChunk4 ++ "Complete Analysis" ++ identChunk5) _
      (by simp [getDetailedStatusMessage, h, String.append_assoc])
  · exact strContainsSub_of_parts
      (identChunk1 ++ "Schema Match" ++ identChunk2 ++
        toLocaleString data.dev_row_count ++ " Rows" ++ identChunk3 ++
        "Data Identical" ++ identChunk4)
      "Complete Analysis" identChunk5 _
      (by simp [getDetailedStatusMessage, h, String.append_assoc])

/-- C2 witness at a concrete identical input. -/
theorem claim2_witness :
    strContainsSub (getDetailedStatusMessage sampleIdentical)
      (toLocaleString sampleIdentical.dev_row_count ++ " Rows") ∧
    getComparisonStatusClass sampleIdentical = "card-header bg-success text-white" :=
  ⟨(claim2_identical_success_report sampleIdentical rfl).2.2.1,
   (claim2_identical_success_report sampleIdentical rfl).2.2.2.2.2⟩

/-- C3: in the non-identical case the data-differences entry (position 2)
is danger with the comma-joined list of exactly the non-zero categories in
the fixed order with their labels (a zero-count category is omitted), it
is success "Compared data identical" when all three counts are zero, and
on the summary `{total_differing := 5, total_missing_dev := 0,
total_missing_prod := 2}` the joined list is
"5 differing, 2 missing from PROD". -/
theorem claim3_data_diff_entry (data : ComparisonResult)
    (h : data.tables_identical = false) :
    (issuesFor data)[2]? = some (dataDiffEntry data) ∧
    dataIssuesFor data.summary = specDataParts data.summary ∧
    (0 < data.summary.total_differing ∨ 0 < data.summary.total_missing_dev ∨
       0 < data.summary.total_missing_prod →
      dataDiffEntry data =
        { icon := "fa-exclamation-triangle"
          text := "Data differences: " ++
                  String.intercalate ", " (specDataParts data.summary)
          type := "danger" }) ∧
    (data.summary.total_differing = 0 ∧ data.summary.total_missing_dev = 0 ∧
       data.summary.total_missing_prod = 0 →
      dataDiffEntry data =
        { icon := "fa-check", text := "Compared data identical", type := "success" }) ∧
    String.intercalate ", "
        (dataIssuesFor
          { total_differing := 5, total_missing_dev := 0, total_missing_prod := 2 }) =
      "5 differing, 2 missing from PROD" := by
  refine ⟨by rw [issuesFor_eq]; rfl, dataIssuesFor_eq_spec data.summary, ?_, ?_, by decide⟩
  · intro hpos
    rw [dataDiffEntry, if_pos hpos, dataIssuesFor_eq_spec]
  · rintro ⟨h1, h2, h3⟩
    rw [dataDiffEntry, if_neg]
    simp [h1, h2, h3]

/-- C3 witness at a concrete non-identical input whose summary is
exactly the one named in the claim. -/
theorem claim3_witness :
    String.intercalate ", " (dataIssuesFor sampleResult.summary) =
      "5 differing, 2 missing from PROD" :=
  (claim3_data_diff_entry sampleResult rfl).2.2.2.2

/-- C4: in the non-identical case the row-count entry (position 1) is
danger and carries both literal (locale-formatted) counts exactly when
`dev_row_count ≠ prod_row_count`; otherwise it is success and carries the
matching literal count. -/
theorem claim4_row_count_entry (data : ComparisonResult)
    (h : data.tables_identical = false) :
    (issuesFor data)[1]? = some (rowCountEntry data) ∧
    (data.dev_row_count ≠ data.prod_row_count →
      rowCountEntry data =
        { icon := "fa-exclamation-triangle"
          text := "Row count mismatch: DEV(" ++ toLocaleString data.dev_row_count ++
                  ") vs PROD(" ++ toLocaleString data.prod_row_count ++ ")"
          type := "danger" }) ∧
    (data.dev_row_count = data.prod_row_count →
      rowCountEntry data =
        { icon := "fa-check"
          text := "Row counts match (" ++ toLocaleString data.dev_row_count ++ ")"
          type := "success" }) := by
  refine ⟨by rw [issuesFor_eq]; rfl, ?_, ?_⟩
  · intro hne; rw [rowCountEntry, if_pos hne]
  · intro heq; rw [rowCountEntry, if_neg (by simpa using heq)]

/-- C4 witness at a concrete input with mismatched row counts. -/
theorem claim4_witness :
    rowCountEntry sampleResult =
      { icon := "fa-exclamation-triangle"
        text := "Row count mismatch: DEV(" ++ toLocaleString sampleResult.dev_row_count ++
                ") vs PROD(" ++ toLocaleString sampleResult.prod_row_count ++ ")"
        type := "danger" } :=
  (claim4_row_count_entry sampleResult rfl).2.1 (by decide)

/-- C5: in the non-identical case the schema entry (position 0) is danger
and carries the number of schema differences when `schema_differences` is
non-empty; otherwise (empty or absent) it is success with the
"Schema identical" message. -/
theorem claim5_schema_entry (data : ComparisonResult)
    (h : data.tables_identical = false) :
    (issuesFor data)[0]? = some (schemaEntry data) ∧
    (∀ l : List String, data.schema_differences = some l → 0 < l.length →
      schemaEntry data =
        { icon := "fa-exclamation-triangle"
          text := "Schema differences (" ++ toString l.length ++ ")"
          type := "danger" }) ∧
    (data.schema_differences = none ∨ data.schema_differences = some [] →
      schemaEntry data =
        { icon := "fa-check", text := "Schema identical", type := "success" }) := by
  refine ⟨by rw [issuesFor_eq]; rfl, ?_, ?_⟩
  · intro l hl hpos
    rw [schemaEntry, hl]
    simp [hpos]
  · rintro (hn | he)
    · simp [schemaEntry, hn]
    · simp [schemaEntry, he]

/-- C5 witness at a concrete input with two schema differences. -/
theorem claim5_witness :
    schemaEntry sampleResult =
      { icon := "fa-exclamation-triangle"
        text := "Schema differences (" ++ toString (2 : Nat) ++ ")"
        type := "danger" } :=
  (claim5_schema_entry sampleResult rfl).2.1 ["colA", "colB"] rfl (by decide)

/-- C6: in the non-identical case the coverage entry (position 3) is
warning with the limited-analysis message built from
`getSamplingMethodText` and the literal `max_rows_setting` when
`was_limited` is true, and success with "Complete table analysis" when it
is false. -/
theorem claim6_coverage_entry (data : ComparisonResult)
    (h : data.tables_identical = false) :
    (issuesFor data)[3]? = some (coverageEntry data) ∧
    (data.was_limited = true →
      coverageEntry data =
        { icon := "fa-info-circle"
          text := "Limited analysis: " ++ getSamplingMethodText data.sampling_method ++
                  " " ++ toLocaleString data.max_rows_setting ++ " rows"
          type := "warning" }) ∧
    (data.was_limited = false →
      coverageEntry data =
        { icon := "fa-check", text := "Complete table analysis", type := "success" }) := by
  refine ⟨by rw [issuesFor_eq]; rfl, ?_, ?_⟩ <;> intro hw <;> rw [coverageEntry] <;> simp [hw]

/-- C6 witness at a concrete limited input with the RANDOM method. -/
theorem claim6_witness :
    coverageEntry sampleResult =
      { icon := "fa-info-circle"
        text := "Limited analysis: " ++ getSamplingMethodText (some "RANDOM") ++
                " " ++ toLocaleString 5000 ++ " rows"
        type := "warning" } :=
  (claim6_coverage_entry sampleResult rfl).2.1 rfl

/-- C7: `getSamplingMethodText` is total — LAST_N maps to "most recent",
RANDOM to "random sample of", TOP_N to "first", every other input
(including an absent method and unrecognized strings) to the default
"first", and the result is always a non-empty string. -/
theorem claim7_sampling_method_total :
    getSamplingMethodText (some "LAST_N") = "most recent" ∧
    getSamplingMethodText (some "RANDOM") = "random sample of" ∧
    getSamplingMethodText (some "TOP_N") = "first" ∧
    getSamplingMethodText none = "first" ∧
    (∀ m : String, m ≠ "LAST_N" → m ≠ "RANDOM" → m ≠ "TOP_N" →
      getSamplingMethodText (some m) = "first") ∧
    (∀ method : Option String, getSamplingMethodText method ≠ "") := by
  refine ⟨by decide, by decide, by decide, by decide, ?_, ?_⟩
  · intro m h1 h2 h3
    rw [getSamplingMethodText]
    simp [samplingMethods, h1, h2, h3]
  · intro method
    rcases method with _ | m
    · decide
    · show (samplingMethods m).getD "first" ≠ ""
      rw [samplingMethods]
      split_ifs <;> decide

/-- C7 witness: the default branch applied at the unrecognized method
"BOGUS". -/
theorem claim7_witness : getSamplingMethodText (some "BOGUS") = "first" :=
  claim7_sampling_method_total.2.2.2.2.1 "BOGUS" (by decide) (by decide) (by decide)

/-- C8: the status derivation is deterministic and stateless — its output
depends only on the ComparisonResult argument, so two calls on equal
inputs produce identical output for both the detailed message and the
style class. -/
theorem claim8_derive_deterministic (d1 d2 : ComparisonResult) (h : d1 = d2) :
    getDetailedStatusMessage d1 = getDetailedStatusMessage d2 ∧
    getComparisonStatusClass d1 = getComparisonStatusClass d2 := by
  subst h
  exact ⟨rfl, rfl⟩

/-- C8 witness: two calls on the same concrete input agree. -/
theorem claim8_witness :
    getDetailedStatusMessage sampleResult = getDetailedStatusMessage sampleResult ∧
    getComparisonStatusClass sampleResult = getComparisonStatusClass sampleResult :=
  claim8_derive_deterministic sampleResult sampleResult rfl

/-- C9: the overall style class depends only on `tables_identical` — any
two inputs agreeing on that flag receive the same class from
`getComparisonStatusClass`, however much every other field differs. -/
theorem claim9_style_depends_only_on_flag (d1 d2 : ComparisonResult)
    (h : d1.tables_identical = d2.tables_identical) :
    getComparisonStatusClass d1 = getComparisonStatusClass d2 := by
  rw [getComparisonStatusClass, getComparisonStatusClass, h]

/-- C9 witness: two concrete inputs differing in every field except
`tables_identical` get the same style class. -/
theorem claim9_witness :
    getComparisonStatusClass sampleResult = getComparisonStatusClass sampleResult2 :=
  claim9_style_depends_only_on_flag sampleResult sampleResult2 rfl

/-- C10: with `tables_identical = false` and an absent (`null`)
`schema_differences` field, the interpreter does not fail — the schema
entry is produced as success "Schema identical", and both the issues list
and the rendered message coincide with those for an empty
`schema_differences` sequence. -/
theorem claim10_null_schema_differences (data : ComparisonResult)
    (h1 : data.tables_identical = false) (h2 : data.schema_differences = none) :
    (issuesFor data)[0]? =
      some { icon := "fa-check", text := "Schema identical", type := "success" } ∧
    issuesFor data = issuesFor { data with schema_differences := some [] } ∧
    getDetailedStatusMessage data =
      getDetailedStatusMessage { data with schema_differences := some [] } := by
  have hs : schemaEntry data = schemaEntry { data with schema_differences := some [] } := by
    simp [schemaEntry, h2]
  have hiss : issuesFor data = issuesFor { data with schema_differences := some [] } := by
    rw [issuesFor_eq, issuesFor_eq, hs]
    rfl
  refine ⟨?_, hiss, ?_⟩
  · rw [issuesFor_eq]
    simp [schemaEntry, h2]
  · simp [getDetailedStatusMessage, h1, hiss]

/-- C10 witness at a concrete non-identical input with an absent
`schema_differences` field. -/
theorem claim10_witness :
    (issuesFor sampleResult2)[0]? =
      some { icon := "fa-check", text := "Schema identical", type := "success" } :=
  (claim10_null_schema_differences sampleResult2 rfl rfl).1

